import Mathlib

/-!
Shallow embedding of the AidVoiceAssistant storage layer
(`server/storage.ts`), the REST route handlers (`server/routes.ts`),
and the translation services
(`client/src/services/translation-service.ts`,
`server/gemini-service.ts`, `client/src/data/languages.ts`).

Conventions of the embedding:
* A JavaScript `Map<number, T>` is an association list `List (Nat × T)`;
  `Map.set` replaces in place when the key exists and appends otherwise,
  and `Map.values()` is the list of second components, preserving
  insertion order, exactly as JS `Map` does.
* JSON (`jsonb`) values are modelled by the inductive `JsValue` with the
  JavaScript truthiness predicate `JsValue.truthy` (note `[]` and `{}`
  are truthy in JS).
* An `Option` field models a value that may be absent; the code never
  distinguishes a missing key from an explicit `null` on any path the
  claims reach, so both are collapsed to `none`.
* `Date` timestamps are opaque: each operation that calls `new Date()`
  takes the current instant as an extra `now : Nat` argument.
* `async` methods of `MemStorage` never reject, so they are modelled as
  pure functions from the storage state (mutators also return the new
  state).
-/

/-- JSON values as produced by JavaScript object literals. -/
inductive JsValue where
  | nullV : JsValue
  | boolV : Bool → JsValue
  | numV : Int → JsValue
  | strV : String → JsValue
  | arrV : List JsValue → JsValue
  | objV : List (String × JsValue) → JsValue

/-- JavaScript truthiness of a `JsValue`: `null`, `false`, `0` and `""`
are falsy; every array and object (including `[]` and `{}`) is truthy. -/
def JsValue.truthy : JsValue → Bool
  | .nullV => false
  | .boolV b => b
  | .numV n => n ≠ 0
  | .strV s => s ≠ ""
  | .arrV _ => true
  | .objV _ => true

/-- JavaScript `a || b` for an optional string `a` (absent, `null` and
`""` are falsy). -/
def jsOrStr (a : Option String) (b : String) : String :=
  match a with
  | none => b
  | some s => if s = "" then b else s

/-- JavaScript `a || b` for an optional JSON value `a`. -/
def jsOrJs (a : Option JsValue) (b : JsValue) : JsValue :=
  match a with
  | none => b
  | some v => if v.truthy then v else b

/-- JavaScript truthiness of the optional string argument of
`getEmergencyContacts(country?)`: `undefined` and `""` are falsy. -/
def strTruthy : Option String → Bool
  | none => false
  | some s => s ≠ ""

/-! ### Records (`shared/schema.ts` select types) -/

/-- Row of the `users` table. -/
structure User where
  id : Nat
  username : String
  password : String
  preferredLanguage : Option String
  accessibilitySettings : Option JsValue
  createdAt : Option Nat

/-- Row of the `emergency_protocols` table. -/
structure EmergencyProtocol where
  id : Nat
  type : String
  name : String
  description : Option String
  instructions : JsValue
  severity : String
  category : String
  languages : Option JsValue
  createdAt : Option Nat

/-- Row of the `emergency_contacts` table. -/
structure EmergencyContact where
  id : Nat
  name : String
  phoneNumber : String
  type : String
  country : String
  region : Option String
  isActive : Option Bool

/-- Row of the `user_sessions` table. -/
structure UserSession where
  id : Nat
  userId : Option Nat
  sessionData : JsValue
  startTime : Option Nat
  endTime : Option Nat
  emergencyType : Option String
  actions : Option JsValue

/-! ### Insert payloads (`shared/schema.ts` Zod insert schemas)

Each insert schema `.pick`s the non-id columns.  The extra `id : Option Nat`
field models a stray `id` property that may sit on the caller's runtime
object despite the TypeScript type (structural typing erases it); every
`createX` spreads the payload first and writes `id` after it, so such a
property is always overridden. -/

/-- Parsed body of `insertUserSchema`. -/
structure InsertUser where
  username : String
  password : String
  preferredLanguage : Option String := none
  accessibilitySettings : Option JsValue := none
  id : Option Nat := none

/-- Parsed body of `insertEmergencyProtocolSchema`. -/
structure InsertEmergencyProtocol where
  type : String
  name : String
  description : Option String := none
  instructions : JsValue
  severity : String
  category : String
  languages : Option JsValue := none
  id : Option Nat := none

/-- Parsed body of `insertEmergencyContactSchema`. -/
structure InsertEmergencyContact where
  name : String
  phoneNumber : String
  type : String
  country : String
  region : Option String := none
  isActive : Option Bool := none
  id : Option Nat := none

/-- Parsed body of `insertUserSessionSchema`. -/
structure InsertUserSession where
  userId : Option Nat := none
  sessionData : JsValue
  emergencyType : Option String := none
  actions : Option JsValue := none
  id : Option Nat := none

/-! ### Partial update payloads (`schema.partial().parse(...)`)

A `none` field is a key that is absent from the payload; `some v` is a key
present with value `v` (for a nullable column `v` is itself an `Option`). -/

/-- Parsed body of `insertUserSchema.partial()`. -/
structure UserPatch where
  username : Option String := none
  password : Option String := none
  preferredLanguage : Option (Option String) := none
  accessibilitySettings : Option (Option JsValue) := none

/-- Parsed body of `insertEmergencyProtocolSchema.partial()`. -/
structure ProtocolPatch where
  type : Option String := none
  name : Option String := none
  description : Option (Option String) := none
  instructions : Option JsValue := none
  severity : Option String := none
  category : Option String := none
  languages : Option (Option JsValue) := none

/-- Parsed body of `insertEmergencyContactSchema.partial()`. -/
structure ContactPatch where
  name : Option String := none
  phoneNumber : Option String := none
  type : Option String := none
  country : Option String := none
  region : Option (Option String) := none
  isActive : Option (Option Bool) := none

/-- Parsed body of `insertUserSessionSchema.partial()`. -/
structure SessionPatch where
  userId : Option (Option Nat) := none
  sessionData : Option JsValue := none
  emergencyType : Option (Option String) := none
  actions : Option (Option JsValue) := none

/-! ### JavaScript `Map<number, T>` as an insertion-ordered association list -/

/-- `Map.get(k)`. -/
def mapGet (m : List (Nat × α)) (k : Nat) : Option α :=
  (m.find? (fun e => e.fst = k)).map (·.snd)

/-- `Map.set(k, v)`: replace in place when `k` is present, append
otherwise (JS `Map` keeps the original insertion position on update). -/
def mapSet (m : List (Nat × α)) (k : Nat) (v : α) : List (Nat × α) :=
  if m.any (fun e => e.fst = k) then
    m.map (fun e => if e.fst = k then (k, v) else e)
  else
    m ++ [(k, v)]

/-- `Array.from(map.values())`. -/
def mapValues (m : List (Nat × α)) : List α := m.map (·.snd)

/-- The keys of the map in insertion order. -/
def mapKeys (m : List (Nat × α)) : List Nat := m.map (·.fst)

/-! ### `MemStorage` state -/

/-- The private fields of `class MemStorage`. -/
structure MemStorage where
  users : List (Nat × User)
  emergencyProtocols : List (Nat × EmergencyProtocol)
  emergencyContacts : List (Nat × EmergencyContact)
  userSessions : List (Nat × UserSession)
  currentId : Nat

namespace MemStorage

/-- The four protocols seeded by `initializeDefaultData` (ids are drawn
from `currentId++` starting at 1). -/
def defaultProtocols (now : Nat) : List EmergencyProtocol :=
  [ { id := 1
      type := "fire"
      name := "Fire Emergency"
      description := some "Protocol for fire emergencies"
      instructions := JsValue.objV
        [("steps", JsValue.arrV
          [ JsValue.strV "Stay low and exit immediately"
          , JsValue.strV "Call emergency services"
          , JsValue.strV "Go to meeting point"])]
      severity := "high"
      category := "structural"
      languages := some (JsValue.objV
        [ ("en", JsValue.strV "Fire Emergency")
        , ("es", JsValue.strV "Emergencia de Incendio")
        , ("fr", JsValue.strV "Urgence Incendie")
        , ("hi", JsValue.strV "आग की आपातकाल")
        , ("ar", JsValue.strV "حالة طوارئ حريق")])
      createdAt := some now }
  , { id := 2
      type := "medical"
      name := "Medical Emergency"
      description := some "Protocol for medical emergencies"
      instructions := JsValue.objV
        [("steps", JsValue.arrV
          [ JsValue.strV "Check for responsiveness"
          , JsValue.strV "Call emergency services immediately"
          , JsValue.strV "Begin first aid if trained"])]
      severity := "critical"
      category := "medical"
      languages := some (JsValue.objV
        [ ("en", JsValue.strV "Medical Emergency")
        , ("es", JsValue.strV "Emergencia Médica")
        , ("fr", JsValue.strV "Urgence Médicale")
        , ("hi", JsValue.strV "चिकित्सा आपातकाल")
        , ("ar", JsValue.strV "حالة طوارئ طبية")])
      createdAt := some now }
  , { id := 3
      type := "earthquake"
      name := "Earthquake"
      description := some "Protocol for earthquake emergencies"
      instructions := JsValue.objV
        [("steps", JsValue.arrV
          [ JsValue.strV "Drop, cover, and hold on"
          , JsValue.strV "Stay away from windows and heavy objects"
          , JsValue.strV "Exit building when shaking stops"])]
      severity := "high"
      category := "natural"
      languages := some (JsValue.objV
        [ ("en", JsValue.strV "Earthquake")
        , ("es", JsValue.strV "Terremoto")
        , ("fr", JsValue.strV "Tremblement de terre")
        , ("hi", JsValue.strV "भूकंप")
        , ("ar", JsValue.strV "زلزال")])
      createdAt := some now }
  , { id := 4
      type := "flood"
      name := "Flood Warning"
      description := some "Protocol for flood emergencies"
      instructions := JsValue.objV
        [("steps", JsValue.arrV
          [ JsValue.strV "Move to higher ground immediately"
          , JsValue.strV "Avoid walking in moving water"
          , JsValue.strV "Call emergency services"])]
      severity := "medium"
      category := "natural"
      languages := some (JsValue.objV
        [ ("en", JsValue.strV "Flood Warning")
        , ("es", JsValue.strV "Alerta de Inundación")
        , ("fr", JsValue.strV "Alerte d'Inondation")
        , ("hi", JsValue.strV "बाढ़ की चेतावनी")
        , ("ar", JsValue.strV "تحذير من الفيضانات")])
      createdAt := some now } ]

/-- The four contacts seeded by `initializeDefaultData` (ids continue
from the same counter, 5 through 8). -/
def defaultContacts : List EmergencyContact :=
  [ { id := 5, name := "Emergency Services", phoneNumber := "911"
      type := "general", country := "US", region := some "national"
      isActive := some true }
  , { id := 6, name := "Fire Department", phoneNumber := "911"
      type := "fire", country := "US", region := some "national"
      isActive := some true }
  , { id := 7, name := "Medical Emergency", phoneNumber := "911"
      type := "medical", country := "US", region := some "national"
      isActive := some true }
  , { id := 8, name := "Police", phoneNumber := "911"
      type := "police", country := "US", region := some "national"
      isActive := some true } ]

/-- `new MemStorage()`: empty maps, `currentId = 1`, then
`initializeDefaultData()` inserts the four default protocols and the four
default contacts, each keyed by its id, leaving `currentId = 9`. -/
def init (now : Nat) : MemStorage :=
  { users := []
    emergencyProtocols := (defaultProtocols now).map (fun p => (p.id, p))
    emergencyContacts := defaultContacts.map (fun c => (c.id, c))
    userSessions := []
    currentId := 9 }

/-! ### User methods -/

/-- `getUser(id)`. -/
def getUser (st : MemStorage) (id : Nat) : Option User :=
  mapGet st.users id

/-- `getUserByUsername(username)`. -/
def getUserByUsername (st : MemStorage) (username : String) : Option User :=
  (mapValues st.users).find? (fun user => user.username = username)

/-- `createUser(insertUser)`: takes a fresh id from the shared counter,
spreads the payload, then overrides `id`, `createdAt`,
`preferredLanguage` (defaulted to `"en"` when falsy) and
`accessibilitySettings` (defaulted to `{}` when falsy). -/
def createUser (st : MemStorage) (insertUser : InsertUser) (now : Nat) :
    User × MemStorage :=
  let id := st.currentId
  let user : User :=
    { id := id
      username := insertUser.username
      password := insertUser.password
      createdAt := some now
      preferredLanguage := some (jsOrStr insertUser.preferredLanguage "en")
      accessibilitySettings :=
        some (jsOrJs insertUser.accessibilitySettings (JsValue.objV [])) }
  (user, { st with users := mapSet st.users id user, currentId := st.currentId + 1 })

/-- `updateUser(id, update)`: `undefined` when the id is absent, otherwise
the shallow merge `{ ...existingUser, ...updateUser }`, stored back at the
same key. -/
def updateUser (st : MemStorage) (id : Nat) (patch : UserPatch) :
    Option User × MemStorage :=
  match mapGet st.users id with
  | none => (none, st)
  | some existingUser =>
    let updatedUser : User :=
      { id := existingUser.id
        username := patch.username.getD existingUser.username
        password := patch.password.getD existingUser.password
        preferredLanguage := patch.preferredLanguage.getD existingUser.preferredLanguage
        accessibilitySettings :=
          patch.accessibilitySettings.getD existingUser.accessibilitySettings
        createdAt := existingUser.createdAt }
    (some updatedUser, { st with users := mapSet st.users id updatedUser })

/-! ### Emergency protocol methods -/

/-- `getEmergencyProtocols()`. -/
def getEmergencyProtocols (st : MemStorage) : List EmergencyProtocol :=
  mapValues st.emergencyProtocols

/-- `getEmergencyProtocolByType(type)`: `Array.from(values()).find(...)`,
i.e. the first protocol in insertion order whose `type` matches. -/
def getEmergencyProtocolByType (st : MemStorage) (type : String) :
    Option EmergencyProtocol :=
  (mapValues st.emergencyProtocols).find? (fun protocol => protocol.type = type)

/-- `createEmergencyProtocol(insertProtocol)`. -/
def createEmergencyProtocol (st : MemStorage)
    (insertProtocol : InsertEmergencyProtocol) (now : Nat) :
    EmergencyProtocol × MemStorage :=
  let id := st.currentId
  let protocol : EmergencyProtocol :=
    { id := id
      type := insertProtocol.type
      name := insertProtocol.name
      description := insertProtocol.description
      instructions := insertProtocol.instructions
      severity := insertProtocol.severity
      category := insertProtocol.category
      languages := insertProtocol.languages
      createdAt := some now }
  (protocol,
    { st with emergencyProtocols := mapSet st.emergencyProtocols id protocol
              currentId := st.currentId + 1 })

/-- `updateEmergencyProtocol(id, update)`. -/
def updateEmergencyProtocol (st : MemStorage) (id : Nat)
    (patch : ProtocolPatch) : Option EmergencyProtocol × MemStorage :=
  match mapGet st.emergencyProtocols id with
  | none => (none, st)
  | some existingProtocol =>
    let updatedProtocol : EmergencyProtocol :=
      { id := existingProtocol.id
        type := patch.type.getD existingProtocol.type
        name := patch.name.getD existingProtocol.name
        description := patch.description.getD existingProtocol.description
        instructions := patch.instructions.getD existingProtocol.instructions
        severity := patch.severity.getD existingProtocol.severity
        category := patch.category.getD existingProtocol.category
        languages := patch.languages.getD existingProtocol.languages
        createdAt := existingProtocol.createdAt }
    (some updatedProtocol,
      { st with emergencyProtocols := mapSet st.emergencyProtocols id updatedProtocol })

/-! ### Emergency contact methods -/

/-- `getEmergencyContacts(country?)`: all contacts, filtered by `country`
only when the argument is truthy (`country ? ... : contacts`). -/
def getEmergencyContacts (st : MemStorage) (country : Option String) :
    List EmergencyContact :=
  let contacts := mapValues st.emergencyContacts
  if strTruthy country then
    contacts.filter (fun contact => contact.country = country.getD "")
  else contacts

/-- `getEmergencyContactsByType(type, country?)`: filter by `type`
unconditionally, then by `country` only when truthy. -/
def getEmergencyContactsByType (st : MemStorage) (type : String)
    (country : Option String) : List EmergencyContact :=
  let contacts := (mapValues st.emergencyContacts).filter
    (fun contact => contact.type = type)
  if strTruthy country then
    contacts.filter (fun contact => contact.country = country.getD "")
  else contacts

/-- `createEmergencyContact(insertContact)` (no `createdAt` column). -/
def createEmergencyContact (st : MemStorage)
    (insertContact : InsertEmergencyContact) :
    EmergencyContact × MemStorage :=
  let id := st.currentId
  let contact : EmergencyContact :=
    { id := id
      name := insertContact.name
      phoneNumber := insertContact.phoneNumber
      type := insertContact.type
      country := insertContact.country
      region := insertContact.region
      isActive := insertContact.isActive }
  (contact,
    { st with emergencyContacts := mapSet st.emergencyContacts id contact
              currentId := st.currentId + 1 })

/-- `updateEmergencyContact(id, update)`. -/
def updateEmergencyContact (st : MemStorage) (id : Nat)
    (patch : ContactPatch) : Option EmergencyContact × MemStorage :=
  match mapGet st.emergencyContacts id with
  | none => (none, st)
  | some existingContact =>
    let updatedContact : EmergencyContact :=
      { id := existingContact.id
        name := patch.name.getD existingContact.name
        phoneNumber := patch.phoneNumber.getD existingContact.phoneNumber
        type := patch.type.getD existingContact.type
        country := patch.country.getD existingContact.country
        region := patch.region.getD existingContact.region
        isActive := patch.isActive.getD existingContact.isActive }
    (some updatedContact,
      { st with emergencyContacts := mapSet st.emergencyContacts id updatedContact })

/-! ### User session methods -/

/-- `createUserSession(insertSession)`: fresh id, `startTime = new Date()`,
`endTime = null`, `actions` defaulted to `[]` when falsy. -/
def createUserSession (st : MemStorage) (insertSession : InsertUserSession)
    (now : Nat) : UserSession × MemStorage :=
  let id := st.currentId
  let session : UserSession :=
    { id := id
      userId := insertSession.userId
      sessionData := insertSession.sessionData
      emergencyType := insertSession.emergencyType
      startTime := some now
      endTime := none
      actions := some (jsOrJs insertSession.actions (JsValue.arrV [])) }
  (session,
    { st with userSessions := mapSet st.userSessions id session
              currentId := st.currentId + 1 })

/-- `getUserSessions(userId)`. -/
def getUserSessions (st : MemStorage) (userId : Nat) : List UserSession :=
  (mapValues st.userSessions).filter (fun session => session.userId = some userId)

/-- `updateUserSession(id, update)`. -/
def updateUserSession (st : MemStorage) (id : Nat) (patch : SessionPatch) :
    Option UserSession × MemStorage :=
  match mapGet st.userSessions id with
  | none => (none, st)
  | some existingSession =>
    let updatedSession : UserSession :=
      { id := existingSession.id
        userId := patch.userId.getD existingSession.userId
        sessionData := patch.sessionData.getD existingSession.sessionData
        emergencyType := patch.emergencyType.getD existingSession.emergencyType
        startTime := existingSession.startTime
        endTime := existingSession.endTime
        actions := patch.actions.getD existingSession.actions }
    (some updatedSession,
      { st with userSessions := mapSet st.userSessions id updatedSession })

end MemStorage

/-! ### Route handlers (`server/routes.ts`, `registerRoutes`)

Each handler is modelled as a function from its parsed inputs and the
storage state to the HTTP status code it sends plus the state afterwards.
A request body is `none` when the Zod insert schema rejects it (the parse
throws and the handler's catch answers 400).  `MemStorage` methods never
throw, so inside these handlers the only throwing operation is the schema
parse; the catch-all 500 branches of the GET handlers are unreachable in
the model. -/

namespace Routes

/-- `GET /api/users/:id`. -/
def getUserById (st : MemStorage) (id : Nat) : Nat × MemStorage :=
  match st.getUser id with
  | none => (404, st)
  | some _ => (200, st)

/-- `POST /api/users`. -/
def postUsers (st : MemStorage) (body : Option InsertUser) (now : Nat) :
    Nat × MemStorage :=
  match body with
  | none => (400, st)
  | some userData => (201, (st.createUser userData now).snd)

/-- `PUT /api/users/:id`. -/
def putUsers (st : MemStorage) (id : Nat) (body : Option UserPatch) :
    Nat × MemStorage :=
  match body with
  | none => (400, st)
  | some userData =>
    match st.updateUser id userData with
    | (none, st') => (404, st')
    | (some _, st') => (200, st')

/-- `GET /api/emergency-protocols`. -/
def getProtocols (st : MemStorage) : Nat × MemStorage := (200, st)

/-- `GET /api/emergency-protocols/:type`. -/
def getProtocolByType (st : MemStorage) (type : String) : Nat × MemStorage :=
  match st.getEmergencyProtocolByType type with
  | none => (404, st)
  | some _ => (200, st)

/-- `POST /api/emergency-protocols`. -/
def postProtocols (st : MemStorage) (body : Option InsertEmergencyProtocol)
    (now : Nat) : Nat × MemStorage :=
  match body with
  | none => (400, st)
  | some protocolData => (201, (st.createEmergencyProtocol protocolData now).snd)

/-- `GET /api/emergency-contacts` (`country` is a query parameter). -/
def getContacts (st : MemStorage) (country : Option String) :
    Nat × MemStorage := (200, st)

/-- `GET /api/emergency-contacts/type/:type`. -/
def getContactsByType (st : MemStorage) (type : String)
    (country : Option String) : Nat × MemStorage := (200, st)

/-- `POST /api/emergency-contacts`. -/
def postContacts (st : MemStorage) (body : Option InsertEmergencyContact) :
    Nat × MemStorage :=
  match body with
  | none => (400, st)
  | some contactData => (201, (st.createEmergencyContact contactData).snd)

/-- `POST /api/user-sessions`. -/
def postSessions (st : MemStorage) (body : Option InsertUserSession)
    (now : Nat) : Nat × MemStorage :=
  match body with
  | none => (400, st)
  | some sessionData => (201, (st.createUserSession sessionData now).snd)

/-- `GET /api/user-sessions/:userId`. -/
def getSessionsByUserId (st : MemStorage) (userId : Nat) :
    Nat × MemStorage := (200, st)

/-- `PUT /api/user-sessions/:id`. -/
def putSessions (st : MemStorage) (id : Nat) (body : Option SessionPatch) :
    Nat × MemStorage :=
  match body with
  | none => (400, st)
  | some sessionData =>
    match st.updateUserSession id sessionData with
    | (none, st') => (404, st')
    | (some _, st') => (200, st')

end Routes

/-! ### Translation services -/

/-- The result object of `GeminiService.translateText`
(`server/gemini-service.ts`). -/
structure GeminiTranslation where
  translatedText : String
  sourceLanguage : String
  confidence : ℚ

namespace GeminiService

/-- `GeminiService.translateText(text, targetLanguage)`: the try block
(the upstream `generateContent` call plus `JSON.parse` of its text) is
modelled by its outcome `upstream`; when it throws, the catch branch
returns the original text, source `"unknown"` and confidence 0. -/
def translateText (text targetLanguage : String)
    (upstream : Except Unit GeminiTranslation) : GeminiTranslation :=
  match upstream with
  | .ok result => result
  | .error _ =>
    { translatedText := text, sourceLanguage := "unknown", confidence := 0 }

end GeminiService

/-- `TranslationResult` (`client/src/types/emergency.ts`); `confidence`
is an optional field there. -/
structure TranslationResult where
  success : Bool
  translatedText : String
  sourceLanguage : String
  targetLanguage : String
  confidence : Option ℚ

/-! `client/src/data/languages.ts`: the `emergencyPhrases` table and
`getEmergencyPhrase`. -/

/-- The `emergencyPhrases` record: per language code, the phrase for each
emergency key. -/
def emergencyPhrases : List (String × List (String × String)) :=
  [ ("en",
     [ ("help", "Help!"), ("emergency", "Emergency!"), ("fire", "Fire!")
     , ("medical", "Medical emergency!"), ("police", "Call police!")
     , ("ambulance", "Call ambulance!"), ("earthquake", "Earthquake!")
     , ("flood", "Flood!"), ("tornado", "Tornado!")
     , ("hurt", "Someone is hurt!"), ("stuck", "Someone is stuck!")
     , ("lost", "I am lost!"), ("safe", "I am safe")
     , ("location", "My location is"), ("contact", "Please contact") ])
  , ("es",
     [ ("help", "¡Ayuda!"), ("emergency", "¡Emergencia!"), ("fire", "¡Fuego!")
     , ("medical", "¡Emergencia médica!"), ("police", "¡Llamen a la policía!")
     , ("ambulance", "¡Llamen a la ambulancia!"), ("earthquake", "¡Terremoto!")
     , ("flood", "¡Inundación!"), ("tornado", "¡Tornado!")
     , ("hurt", "¡Alguien está herido!"), ("stuck", "¡Alguien está atrapado!")
     , ("lost", "¡Estoy perdido!"), ("safe", "Estoy seguro")
     , ("location", "Mi ubicación es"), ("contact", "Por favor contacten") ])
  , ("fr",
     [ ("help", "Aidez-moi!"), ("emergency", "Urgence!"), ("fire", "Feu!")
     , ("medical", "Urgence médicale!"), ("police", "Appelez la police!")
     , ("ambulance", "Appelez l'ambulance!")
     , ("earthquake", "Tremblement de terre!")
     , ("flood", "Inondation!"), ("tornado", "Tornade!")
     , ("hurt", "Quelqu'un est blessé!"), ("stuck", "Quelqu'un est coincé!")
     , ("lost", "Je suis perdu!"), ("safe", "Je suis en sécurité")
     , ("location", "Ma position est"), ("contact", "Veuillez contacter") ])
  , ("hi",
     [ ("help", "मदद!"), ("emergency", "आपातकाल!"), ("fire", "आग!")
     , ("medical", "चिकित्सा आपातकाल!"), ("police", "पुलिस को बुलाओ!")
     , ("ambulance", "एम्बुलेंस को बुलाओ!"), ("earthquake", "भूकंप!")
     , ("flood", "बाढ़!"), ("tornado", "बवंडर!")
     , ("hurt", "कोई घायल है!"), ("stuck", "कोई फंसा है!")
     , ("lost", "मैं खो गया हूं!"), ("safe", "मैं सुरक्षित हूं")
     , ("location", "मेरी स्थिति है"), ("contact", "कृपया संपर्क करें") ])
  , ("ar",
     [ ("help", "مساعدة!"), ("emergency", "طوارئ!"), ("fire", "حريق!")
     , ("medical", "طوارئ طبية!"), ("police", "اتصلوا بالشرطة!")
     , ("ambulance", "اتصلوا بالإسعاف!"), ("earthquake", "زلزال!")
     , ("flood", "فيضان!"), ("tornado", "إعصار!")
     , ("hurt", "شخص مصاب!"), ("stuck", "شخص عالق!")
     , ("lost", "أنا ضائع!"), ("safe", "أنا آمن")
     , ("location", "موقعي هو"), ("contact", "يرجى الاتصال") ]) ]

/-- `getEmergencyPhrase(code, key)`: `phrases?.[key] || key`. -/
def getEmergencyPhrase (code key : String) : String :=
  let lookup := (emergencyPhrases.find? (fun p => p.fst = code)).bind
    (fun phrases => (phrases.snd.find? (fun q => q.fst = key)).map (·.snd))
  jsOrStr lookup key

/-! JavaScript `String.prototype.includes`, over the character lists of
the strings. -/

/-- `leadsWith l pat`: `pat` occurs at the start of `l`. -/
def leadsWith : List Char → List Char → Bool
  | _, [] => true
  | [], _ :: _ => false
  | a :: l, b :: p => a = b && leadsWith l p

/-- `containsChars pat l`: `pat` occurs contiguously somewhere in `l`. -/
def containsChars (pat : List Char) : List Char → Bool
  | [] => pat.isEmpty
  | a :: l => leadsWith (a :: l) pat || containsChars pat l

/-- JavaScript `s.includes(sub)`. -/
def jsIncludes (s sub : String) : Bool := containsChars sub.data s.data

/-- JavaScript `s.toLowerCase()`: lower-case every character (the
emergency keywords are ASCII, where `Char.toLower` agrees with JS). -/
def jsToLower (s : String) : String := String.mk (s.data.map Char.toLower)

/-- The mutable state of the `TranslationService` singleton that the
claims reach: the translation cache (`Map<string, TranslationResult>`;
the `isInitialized` flag only gates a simulated model-loading delay and
is observationally irrelevant). -/
structure TranslationService where
  translationCache : List (String × TranslationResult)

namespace TranslationService

/-- The keyword list of `fallbackTranslation`. -/
def emergencyKeys : List String :=
  ["help", "emergency", "fire", "medical", "police", "ambulance",
   "earthquake", "flood", "tornado"]

/-- `TranslationService.fallbackTranslation`: scan the emergency keys in
order; on the first key contained in the lowercased text whose
target-language phrase differs from the key, answer that phrase with
confidence 0.8; otherwise `null`. -/
def fallbackTranslation (text targetLanguage sourceLanguage : String) :
    Option TranslationResult :=
  let lowerText := jsToLower text
  match emergencyKeys.find? (fun key =>
      jsIncludes lowerText key &&
        decide (getEmergencyPhrase targetLanguage key ≠ key)) with
  | none => none
  | some key => some
    { success := true
      translatedText := getEmergencyPhrase targetLanguage key
      sourceLanguage := sourceLanguage
      targetLanguage := targetLanguage
      confidence := some (0.8 : ℚ) }

/-- `Map.set` for the string-keyed translation cache. -/
def cacheSet (m : List (String × TranslationResult)) (k : String)
    (v : TranslationResult) : List (String × TranslationResult) :=
  if m.any (fun e => e.fst = k) then
    m.map (fun e => if e.fst = k then (k, v) else e)
  else
    m ++ [(k, v)]

/-- `TranslationService.translateText(text, targetLanguage,
sourceLanguage = 'en')`.  The `apiRequest`/`response.json()` pair is
modelled by its outcome `upstream`.  Cache hits short-circuit; on an
upstream failure the catch branch first tries `fallbackTranslation` and
only then answers the original text with confidence 0. -/
def translateText (svc : TranslationService)
    (text targetLanguage sourceLanguage : String)
    (upstream : Except Unit TranslationResult) :
    TranslationResult × TranslationService :=
  let cacheKey := sourceLanguage ++ "-" ++ targetLanguage ++ "-" ++ text
  match (svc.translationCache.find? (fun e => e.fst = cacheKey)).map (·.snd) with
  | some cached => (cached, svc)
  | none =>
    match upstream with
    | .ok result =>
      (result, { translationCache := cacheSet svc.translationCache cacheKey result })
    | .error _ =>
      match fallbackTranslation text targetLanguage sourceLanguage with
      | some fallbackResult => (fallbackResult, svc)
      | none =>
        ({ success := false
           translatedText := text
           sourceLanguage := sourceLanguage
           targetLanguage := targetLanguage
           confidence := some 0 }, svc)

end TranslationService

/-! ### Operation sequences over a `MemStorage` instance

`Op` enumerates the state-mutating storage methods (the getters are pure
functions of the state and appear above).  `step`, `run` and `runIds`
replay a call sequence and collect the ids handed out by the `createX`
calls. -/

/-- One mutating call on the storage instance. -/
inductive Op where
  | opCreateUser : InsertUser → Nat → Op
  | opUpdateUser : Nat → UserPatch → Op
  | opCreateProtocol : InsertEmergencyProtocol → Nat → Op
  | opUpdateProtocol : Nat → ProtocolPatch → Op
  | opCreateContact : InsertEmergencyContact → Op
  | opUpdateContact : Nat → ContactPatch → Op
  | opCreateSession : InsertUserSession → Nat → Op
  | opUpdateSession : Nat → SessionPatch → Op

namespace MemStorage

/-- Execute one call and keep the state it leaves behind. -/
def step (st : MemStorage) : Op → MemStorage
  | .opCreateUser u now => (st.createUser u now).snd
  | .opUpdateUser id p => (st.updateUser id p).snd
  | .opCreateProtocol p now => (st.createEmergencyProtocol p now).snd
  | .opUpdateProtocol id p => (st.updateEmergencyProtocol id p).snd
  | .opCreateContact c => (st.createEmergencyContact c).snd
  | .opUpdateContact id p => (st.updateEmergencyContact id p).snd
  | .opCreateSession s now => (st.createUserSession s now).snd
  | .opUpdateSession id p => (st.updateUserSession id p).snd

/-- The id field of the record returned by the call, when the call is a
`createX`. -/
def createdId (st : MemStorage) : Op → Option Nat
  | .opCreateUser u now => some (st.createUser u now).fst.id
  | .opCreateProtocol p now => some (st.createEmergencyProtocol p now).fst.id
  | .opCreateContact c => some (st.createEmergencyContact c).fst.id
  | .opCreateSession s now => some (st.createUserSession s now).fst.id
  | .opUpdateUser _ _ => none
  | .opUpdateProtocol _ _ => none
  | .opUpdateContact _ _ => none
  | .opUpdateSession _ _ => none

/-- Replay a call sequence. -/
def run (st : MemStorage) (ops : List Op) : MemStorage := ops.foldl step st

/-- The ids returned by the `createX` calls of the sequence, in call
order. -/
def runIds (st : MemStorage) : List Op → List Nat
  | [] => []
  | op :: rest =>
    match createdId st op with
    | some i => i :: runIds (step st op) rest
    | none => runIds (step st op) rest

/-- All keys present in the four maps, in one list. -/
def allIds (st : MemStorage) : List Nat :=
  mapKeys st.users ++ mapKeys st.emergencyProtocols ++
    mapKeys st.emergencyContacts ++ mapKeys st.userSessions

/-- The id invariant: every stored key is below the counter and no key
repeats, within or across the four maps. -/
def goodIds (st : MemStorage) : Prop :=
  (∀ i ∈ st.allIds, i < st.currentId) ∧ st.allIds.Nodup

end MemStorage

/-- `l₂` extends `l₁` at the end: no element of `l₁` is lost and the
relative order is untouched. -/
def growsTo (l₁ l₂ : List Nat) : Prop := ∃ t, l₂ = l₁ ++ t

theorem growsTo_refl (l : List Nat) : growsTo l l := ⟨[], by simp⟩

theorem growsTo_trans {a b c : List Nat} (h₁ : growsTo a b)
    (h₂ : growsTo b c) : growsTo a c := by
  obtain ⟨t₁, rfl⟩ := h₁
  obtain ⟨t₂, rfl⟩ := h₂
  exact ⟨t₁ ++ t₂, by simp⟩

/-! ### Lemmas about the association-list `Map` -/

theorem find?_replace_of_any (m : List (Nat × α)) (k : Nat) (v : α)
    (h : m.any (fun e => e.fst = k) = true) :
    (m.map (fun e => if e.fst = k then (k, v) else e)).find?
      (fun e => e.fst = k) = some (k, v) := by
  induction m with
  | nil => simp at h
  | cons e m ih =>
    by_cases he : e.fst = k
    · simp [List.find?, he]
    · simp only [List.any_cons, Bool.or_eq_true, decide_eq_true_eq] at h
      rcases h with h | h
    
      · exact absurd h he
      · simpa [List.find?, he] using ih (by simpa using h)

theorem find?_append_of_not_any (m : List (Nat × α)) (k : Nat) (v : α)
    (h : m.any (fun e => e.fst = k) = false) :
    (m ++ [(k, v)]).find? (fun e => e.fst = k) = some (k, v) := by
  induction m with
  | nil => simp [List.find?]
  | cons e m ih =>
    simp only [List.any_cons, Bool.or_eq_false_iff, decide_eq_false_iff_not] at h
    simp [List.find?, h.1, ih (by simp [h.2])]

/-- After `Map.set(k, v)`, `Map.get(k)` yields `v`. -/
theorem mapGet_mapSet_self (m : List (Nat × α)) (k : Nat) (v : α) :
    mapGet (mapSet m k v) k = some v := by
  unfold mapGet mapSet
  rcases hc : m.any (fun e => e.fst = k) with _ | _
  · simp [hc, find?_append_of_not_any m k v hc]
  · simp [hc, find?_replace_of_any m k v hc]

theorem mapKeys_replace (m : List (Nat × α)) (k : Nat) (v : α) :
    mapKeys (m.map (fun e => if e.fst = k then (k, v) else e)) = mapKeys m := by
  unfold mapKeys
  induction m with
  | nil => rfl
  | cons e m ih =>
    simp only [List.map_cons]
    by_cases he : e.fst = k
    · rw [if_pos he]
      simp only [List.map_cons] at ih
      simp [he, ih]
    · rw [if_neg he]
      simp only [List.map_cons] at ih
      simp [ih]

theorem any_eq_mem_mapKeys (m : List (Nat × α)) (k : Nat) :
    m.any (fun e => e.fst = k) = true ↔ k ∈ mapKeys m := by
  rw [List.any_eq_true]
  unfold mapKeys
  rw [List.mem_map]
  constructor
  · rintro ⟨e, he, hk⟩
    simp only [decide_eq_true_eq] at hk
    exact ⟨e, he, hk⟩
  · rintro ⟨e, he, hk⟩
    exact ⟨e, he, by simp [hk]⟩

/-- `Map.set` on a present key keeps the key list unchanged. -/
theorem mapKeys_mapSet_of_mem (m : List (Nat × α)) (k : Nat) (v : α)
    (h : k ∈ mapKeys m) : mapKeys (mapSet m k v) = mapKeys m := by
  unfold mapSet
  rw [if_pos ((any_eq_mem_mapKeys m k).mpr h)]
  exact mapKeys_replace m k v

/-- `Map.set` on a fresh key appends it to the key list. -/
theorem mapKeys_mapSet_of_not_mem (m : List (Nat × α)) (k : Nat) (v : α)
    (h : k ∉ mapKeys m) : mapKeys (mapSet m k v) = mapKeys m ++ [k] := by
  unfold mapSet
  rw [if_neg (fun hc => h ((any_eq_mem_mapKeys m k).mp hc))]
  simp [mapKeys]

/-- In either case `Map.set` only ever appends keys. -/
theorem growsTo_mapKeys_mapSet (m : List (Nat × α)) (k : Nat) (v : α) :
    growsTo (mapKeys m) (mapKeys (mapSet m k v)) := by
  by_cases h : k ∈ mapKeys m
  · exact ⟨[], by simp [mapKeys_mapSet_of_mem m k v h]⟩
  · exact ⟨[k], mapKeys_mapSet_of_not_mem m k v h⟩

/-- A successful `Map.get` means the key is present. -/
theorem mem_mapKeys_of_mapGet {m : List (Nat × α)} {k : Nat} {v : α}
    (h : mapGet m k = some v) : k ∈ mapKeys m := by
  unfold mapGet at h
  rcases hf : m.find? (fun e => e.fst = k) with _ | e
  · rw [hf] at h; simp at h
  · have hm := List.mem_of_find?_eq_some hf
    have hk := List.find?_some hf
    simp only [decide_eq_true_eq] at hk
    subst hk
    exact List.mem_map.mpr ⟨e, hm, rfl⟩

/-- `find?` returns the first hit: the list splits at the result and
everything before it fails the test. -/
theorem find?_earliest {α : Type} (p : α → Bool) :
    ∀ (l : List α) (x : α), l.find? p = some x →
      ∃ a b, l = a ++ x :: b ∧ ∀ y ∈ a, p y = false := by
  intro l
  induction l with
  | nil => intro x h; simp at h
  | cons e l ih =>
    intro x h
    rcases hp : p e with _ | _
    · rw [List.find?_cons_of_neg _ (by simp [hp])] at h
      obtain ⟨a, b, rfl, ha⟩ := ih x h
      exact ⟨e :: a, b, by simp, by
        intro y hy
        rcases List.mem_cons.mp hy with rfl | hy'
        · exact hp
        · exact ha y hy'⟩
    · rw [List.find?_cons_of_pos _ hp] at h
      cases h
      exact ⟨[], l, by simp, by simp⟩

/-! ### Permutation helpers for inserting a fresh key into one of the
four key-list segments -/

theorem permSnoc1 (A B : List Nat) (c : Nat) :
    List.Perm (A ++ c :: B) (c :: (A ++ B)) := List.perm_middle

theorem permSnoc2 (A B C : List Nat) (c : Nat) :
    List.Perm (A ++ (B ++ c :: C)) (c :: (A ++ (B ++ C))) :=
  (List.Perm.append_left A
    (List.perm_middle : List.Perm (B ++ c :: C) (c :: (B ++ C)))).trans
    List.perm_middle

theorem permSnoc3 (A B C D : List Nat) (c : Nat) :
    List.Perm (A ++ (B ++ (C ++ c :: D))) (c :: (A ++ (B ++ (C ++ D)))) :=
  (List.Perm.append_left A (permSnoc2 B C D c)).trans List.perm_middle

theorem permSnoc4 (A B C D : List Nat) (c : Nat) :
    List.Perm (A ++ (B ++ (C ++ (D ++ [c])))) (c :: (A ++ (B ++ (C ++ D)))) :=
  (List.Perm.append_left A
    ((List.Perm.append_left B
      ((List.Perm.append_left C
        (List.perm_append_comm : List.Perm (D ++ [c]) (c :: D))).trans
          (List.perm_middle : List.Perm (C ++ c :: D) (c :: (C ++ D))))).trans
        (List.perm_middle :
          List.Perm (B ++ c :: (C ++ D)) (c :: (B ++ (C ++ D)))))).trans
    List.perm_middle

namespace MemStorage

/-! ### Counter monotonicity and the id invariant -/

theorem step_currentId_le (st : MemStorage) (op : Op) :
    st.currentId ≤ (st.step op).currentId := by
  cases op with
  | opCreateUser u now => simp [step, createUser]
  | opCreateProtocol p now => simp [step, createEmergencyProtocol]
  | opCreateContact c => simp [step, createEmergencyContact]
  | opCreateSession s now => simp [step, createUserSession]
  | opUpdateUser id p =>
    unfold step updateUser
    cases hg : mapGet st.users id <;> simp [hg]
  | opUpdateProtocol id p =>
    unfold step updateEmergencyProtocol
    cases hg : mapGet st.emergencyProtocols id <;> simp [hg]
  | opUpdateContact id p =>
    unfold step updateEmergencyContact
    cases hg : mapGet st.emergencyContacts id <;> simp [hg]
  | opUpdateSession id p =>
    unfold step updateUserSession
    cases hg : mapGet st.userSessions id <;> simp [hg]

theorem createdId_spec {st : MemStorage} {op : Op} {i : Nat}
    (h : st.createdId op = some i) :
    i = st.currentId ∧ (st.step op).currentId = st.currentId + 1 := by
  cases op <;>
    simp [createdId, step, createUser, createEmergencyProtocol,
      createEmergencyContact, createUserSession] at h ⊢ <;> omega

theorem runIds_lower (ops : List Op) :
    ∀ (st : MemStorage), ∀ i ∈ st.runIds ops, st.currentId ≤ i := by
  induction ops with
  | nil => intro st i hi; simp [runIds] at hi
  | cons op rest ih =>
    intro st i hi
    unfold runIds at hi
    split at hi
    · rename_i j heq
      rcases List.mem_cons.mp hi with rfl | hi'
      · exact le_of_eq (createdId_spec heq).1.symm
      · have h1 := ih (st.step op) i hi'
        have h2 := (createdId_spec heq).2
        omega
    · rename_i heq
      exact le_trans (step_currentId_le st op) (ih (st.step op) i hi)

theorem runIds_pairwise_lt (ops : List Op) :
    ∀ st : MemStorage, (st.runIds ops).Pairwise (· < ·) := by
  induction ops with
  | nil => intro st; simp [runIds]
  | cons op rest ih =>
    intro st
    unfold runIds
    split
    · rename_i j heq
      refine List.Pairwise.cons ?_ (ih (st.step op))
      intro i hi
      have h1 := runIds_lower rest (st.step op) i hi
      obtain ⟨hj, h2⟩ := createdId_spec heq
      omega
    · rename_i heq
      exact ih (st.step op)

/-- A state with the same key lists and counter satisfies the same id
invariant. -/
theorem goodIds_congr {st st' : MemStorage} (h : st.goodIds)
    (hu : mapKeys st'.users = mapKeys st.users)
    (hp : mapKeys st'.emergencyProtocols = mapKeys st.emergencyProtocols)
    (hc : mapKeys st'.emergencyContacts = mapKeys st.emergencyContacts)
    (hs : mapKeys st'.userSessions = mapKeys st.userSessions)
    (hcur : st'.currentId = st.currentId) : st'.goodIds := by
  obtain ⟨hb, hn⟩ := h
  have ha : st'.allIds = st.allIds := by
    unfold allIds
    rw [hu, hp, hc, hs]
  exact ⟨by rw [ha, hcur]; exact hb, by rw [ha]; exact hn⟩

/-- Inserting the current counter value into the pooled key list (as a
permutation witness describes) preserves the id invariant once the
counter advances. -/
theorem goodIds_insert {st st' : MemStorage} (h : st.goodIds)
    (hperm : List.Perm st'.allIds (st.currentId :: st.allIds))
    (hcur : st'.currentId = st.currentId + 1) : st'.goodIds := by
  obtain ⟨hb, hn⟩ := h
  constructor
  · intro i hi
    rcases List.mem_cons.mp (hperm.mem_iff.mp hi) with rfl | hi'
    · omega
    · have := hb i hi'
      omega
  · refine hperm.nodup_iff.mpr ?_
    rw [List.nodup_cons]
    exact ⟨fun hc => lt_irrefl _ (hb _ hc), hn⟩

theorem goodIds_step {st : MemStorage} (h : st.goodIds) (op : Op) :
    (st.step op).goodIds := by
  obtain ⟨hb, hn⟩ := h
  have hcu : st.currentId ∉ mapKeys st.users := fun hc =>
    lt_irrefl _ (hb _ (by simp [allIds, hc]))
  have hcp : st.currentId ∉ mapKeys st.emergencyProtocols := fun hc =>
    lt_irrefl _ (hb _ (by simp [allIds, hc]))
  have hcc : st.currentId ∉ mapKeys st.emergencyContacts := fun hc =>
    lt_irrefl _ (hb _ (by simp [allIds, hc]))
  have hcs : st.currentId ∉ mapKeys st.userSessions := fun hc =>
    lt_irrefl _ (hb _ (by simp [allIds, hc]))
  cases op with
  | opCreateUser u now =>
    refine goodIds_insert ⟨hb, hn⟩ ?_ rfl
    show List.Perm (allIds _) _
    unfold allIds
    simp only [step, createUser]
    rw [mapKeys_mapSet_of_not_mem _ _ _ hcu]
    simp only [List.append_assoc, List.cons_append, List.singleton_append,
      List.nil_append]
    exact permSnoc1 _ _ _
  | opCreateProtocol p now =>
    refine goodIds_insert ⟨hb, hn⟩ ?_ rfl
    show List.Perm (allIds _) _
    unfold allIds
    simp only [step, createEmergencyProtocol]
    rw [mapKeys_mapSet_of_not_mem _ _ _ hcp]
    simp only [List.append_assoc, List.cons_append, List.singleton_append,
      List.nil_append]
    exact permSnoc2 _ _ _ _
  | opCreateContact c =>
    refine goodIds_insert ⟨hb, hn⟩ ?_ rfl
    show List.Perm (allIds _) _
    unfold allIds
    simp only [step, createEmergencyContact]
    rw [mapKeys_mapSet_of_not_mem _ _ _ hcc]
    simp only [List.append_assoc, List.cons_append, List.singleton_append,
      List.nil_append]
    exact permSnoc3 _ _ _ _ _
  | opCreateSession s now =>
    refine goodIds_insert ⟨hb, hn⟩ ?_ rfl
    show List.Perm (allIds _) _
    unfold allIds
    simp only [step, createUserSession]
    rw [mapKeys_mapSet_of_not_mem _ _ _ hcs]
    simp only [List.append_assoc, List.cons_append, List.singleton_append,
      List.nil_append]
    exact permSnoc4 _ _ _ _ _
  | opUpdateUser id p =>
    show ((st.updateUser id p).snd).goodIds
    unfold updateUser
    cases hg : mapGet st.users id with
    | none => exact ⟨hb, hn⟩
    | some u0 =>
      exact goodIds_congr ⟨hb, hn⟩
        (mapKeys_mapSet_of_mem _ _ _ (mem_mapKeys_of_mapGet hg)) rfl rfl rfl rfl
  | opUpdateProtocol id p =>
    show ((st.updateEmergencyProtocol id p).snd).goodIds
    unfold updateEmergencyProtocol
    cases hg : mapGet st.emergencyProtocols id with
    | none => exact ⟨hb, hn⟩
    | some p0 =>
      exact goodIds_congr ⟨hb, hn⟩
        rfl (mapKeys_mapSet_of_mem _ _ _ (mem_mapKeys_of_mapGet hg)) rfl rfl rfl
  | opUpdateContact id p =>
    show ((st.updateEmergencyContact id p).snd).goodIds
    unfold updateEmergencyContact
    cases hg : mapGet st.emergencyContacts id with
    | none => exact ⟨hb, hn⟩
    | some c0 =>
      exact goodIds_congr ⟨hb, hn⟩
        rfl rfl (mapKeys_mapSet_of_mem _ _ _ (mem_mapKeys_of_mapGet hg)) rfl rfl
  | opUpdateSession id p =>
    show ((st.updateUserSession id p).snd).goodIds
    unfold updateUserSession
    cases hg : mapGet st.userSessions id with
    | none => exact ⟨hb, hn⟩
    | some s0 =>
      exact goodIds_congr ⟨hb, hn⟩
        rfl rfl rfl (mapKeys_mapSet_of_mem _ _ _ (mem_mapKeys_of_mapGet hg)) rfl

theorem goodIds_run {st : MemStorage} (h : st.goodIds) (ops : List Op) :
    (st.run ops).goodIds := by
  induction ops generalizing st with
  | nil => exact h
  | cons op rest ih => exact ih (goodIds_step h op)

theorem goodIds_init (now : Nat) : (init now).goodIds := by
  constructor
  · intro i hi
    rw [show (init now).allIds = [1, 2, 3, 4, 5, 6, 7, 8] from rfl] at hi
    rw [show (init now).currentId = 9 from rfl]
    fin_cases hi <;> omega
  · rw [show (init now).allIds = [1, 2, 3, 4, 5, 6, 7, 8] from rfl]
    decide

end MemStorage

namespace MemStorage

theorem step_growsTo (st : MemStorage) (op : Op) :
    growsTo (mapKeys st.users) (mapKeys (st.step op).users) ∧
    growsTo (mapKeys st.emergencyProtocols)
      (mapKeys (st.step op).emergencyProtocols) ∧
    growsTo (mapKeys st.emergencyContacts)
      (mapKeys (st.step op).emergencyContacts) ∧
    growsTo (mapKeys st.userSessions) (mapKeys (st.step op).userSessions) := by
  cases op with
  | opCreateUser u now =>
    exact ⟨growsTo_mapKeys_mapSet _ _ _, growsTo_refl _, growsTo_refl _,
      growsTo_refl _⟩
  | opCreateProtocol p now =>
    exact ⟨growsTo_refl _, growsTo_mapKeys_mapSet _ _ _, growsTo_refl _,
      growsTo_refl _⟩
  | opCreateContact c =>
    exact ⟨growsTo_refl _, growsTo_refl _, growsTo_mapKeys_mapSet _ _ _,
      growsTo_refl _⟩
  | opCreateSession s now =>
    exact ⟨growsTo_refl _, growsTo_refl _, growsTo_refl _,
      growsTo_mapKeys_mapSet _ _ _⟩
  | opUpdateUser id p =>
    show growsTo (mapKeys st.users) (mapKeys ((st.updateUser id p).snd).users) ∧
      growsTo (mapKeys st.emergencyProtocols)
        (mapKeys ((st.updateUser id p).snd).emergencyProtocols) ∧
      growsTo (mapKeys st.emergencyContacts)
        (mapKeys ((st.updateUser id p).snd).emergencyContacts) ∧
      growsTo (mapKeys st.userSessions)
        (mapKeys ((st.updateUser id p).snd).userSessions)
    unfold updateUser
    cases hg : mapGet st.users id with
    | none =>
      exact ⟨growsTo_refl _, growsTo_refl _, growsTo_refl _, growsTo_refl _⟩
    | some u0 =>
      exact ⟨growsTo_mapKeys_mapSet _ _ _, growsTo_refl _, growsTo_refl _,
        growsTo_refl _⟩
  | opUpdateProtocol id p =>
    show growsTo (mapKeys st.users)
        (mapKeys ((st.updateEmergencyProtocol id p).snd).users) ∧
      growsTo (mapKeys st.emergencyProtocols)
        (mapKeys ((st.updateEmergencyProtocol id p).snd).emergencyProtocols) ∧
      growsTo (mapKeys st.emergencyContacts)
        (mapKeys ((st.updateEmergencyProtocol id p).snd).emergencyContacts) ∧
      growsTo (mapKeys st.userSessions)
        (mapKeys ((st.updateEmergencyProtocol id p).snd).userSessions)
    unfold updateEmergencyProtocol
    cases hg : mapGet st.emergencyProtocols id with
    | none =>
      exact ⟨growsTo_refl _, growsTo_refl _, growsTo_refl _, growsTo_refl _⟩
    | some p0 =>
      exact ⟨growsTo_refl _, growsTo_mapKeys_mapSet _ _ _, growsTo_refl _,
        growsTo_refl _⟩
  | opUpdateContact id p =>
    show growsTo (mapKeys st.users)
        (mapKeys ((st.updateEmergencyContact id p).snd).users) ∧
      growsTo (mapKeys st.emergencyProtocols)
        (mapKeys ((st.updateEmergencyContact id p).snd).emergencyProtocols) ∧
      growsTo (mapKeys st.emergencyContacts)
        (mapKeys ((st.updateEmergencyContact id p).snd).emergencyContacts) ∧
      growsTo (mapKeys st.userSessions)
        (mapKeys ((st.updateEmergencyContact id p).snd).userSessions)
    unfold updateEmergencyContact
    cases hg : mapGet st.emergencyContacts id with
    | none =>
      exact ⟨growsTo_refl _, growsTo_refl _, growsTo_refl _, growsTo_refl _⟩
    | some c0 =>
      exact ⟨growsTo_refl _, growsTo_refl _, growsTo_mapKeys_mapSet _ _ _,
        growsTo_refl _⟩
  | opUpdateSession id p =>
    show growsTo (mapKeys st.users)
        (mapKeys ((st.updateUserSession id p).snd).users) ∧
      growsTo (mapKeys st.emergencyProtocols)
        (mapKeys ((st.updateUserSession id p).snd).emergencyProtocols) ∧
      growsTo (mapKeys st.emergencyContacts)
        (mapKeys ((st.updateUserSession id p).snd).emergencyContacts) ∧
      growsTo (mapKeys st.userSessions)
        (mapKeys ((st.updateUserSession id p).snd).userSessions)
    unfold updateUserSession
    cases hg : mapGet st.userSessions id with
    | none =>
      exact ⟨growsTo_refl _, growsTo_refl _, growsTo_refl _, growsTo_refl _⟩
    | some s0 =>
      exact ⟨growsTo_refl _, growsTo_refl _, growsTo_refl _,
        growsTo_mapKeys_mapSet _ _ _⟩

theorem run_growsTo (ops : List Op) :
    ∀ st : MemStorage,
      growsTo (mapKeys st.users) (mapKeys (st.run ops).users) ∧
      growsTo (mapKeys st.emergencyProtocols)
        (mapKeys (st.run ops).emergencyProtocols) ∧
      growsTo (mapKeys st.emergencyContacts)
        (mapKeys (st.run ops).emergencyContacts) ∧
      growsTo (mapKeys st.userSessions) (mapKeys (st.run ops).userSessions) := by
  induction ops with
  | nil =>
    intro st
    exact ⟨growsTo_refl _, growsTo_refl _, growsTo_refl _, growsTo_refl _⟩
  | cons op rest ih =>
    intro st
    have h1 := step_growsTo st op
    have h2 := ih (st.step op)
    exact ⟨growsTo_trans h1.1 h2.1, growsTo_trans h1.2.1 h2.2.1,
      growsTo_trans h1.2.2.1 h2.2.2.1, growsTo_trans h1.2.2.2 h2.2.2.2⟩

end MemStorage

/-- `find?` over an extended list keeps an existing hit. -/
theorem find?_append_some {α : Type} {p : α → Bool} {l₁ : List α} {x : α}
    (l₂ : List α) (h : l₁.find? p = some x) : (l₁ ++ l₂).find? p = some x := by
  induction l₁ with
  | nil => simp at h
  | cons a l ih =>
    cases hp : p a with
    | false =>
      rw [List.find?_cons_of_neg _ (by simp [hp])] at h
      rw [List.cons_append, List.find?_cons_of_neg _ (by simp [hp])]
      exact ih h
    | true =>
      rw [List.find?_cons_of_pos _ hp] at h
      rw [List.cons_append, List.find?_cons_of_pos _ hp]
      exact h

/-! ## Claim theorems -/

/-- C1 (counterexample): the claim that construction seeds exactly five
emergency protocols and four emergency contacts is false: right after
`new MemStorage()`, `getEmergencyProtocols()` returns four protocols, not
five. -/
theorem seed_counts_claim_false :
    ¬ (((MemStorage.init 0).getEmergencyProtocols).length = 5 ∧
       ((MemStorage.init 0).getEmergencyContacts none).length = 4) := by
  intro h
  have h4 : ((MemStorage.init 0).getEmergencyProtocols).length = 4 := rfl
  have h5 := h.1
  omega

/-- C1 (amended): the `MemStorage` constructor, via
`initializeDefaultData`, seeds exactly four static emergency protocols
and exactly four static emergency contacts, so immediately after
construction `getEmergencyProtocols()` returns four protocols and
`getEmergencyContacts()` with no argument returns four contacts. -/
theorem seed_counts (now : Nat) :
    ((MemStorage.init now).getEmergencyProtocols).length = 4 ∧
    ((MemStorage.init now).getEmergencyContacts none).length = 4 :=
  ⟨rfl, rfl⟩

/-- C2: every registered storage-backed REST handler answers 200/201 when
the storage method succeeds, 404 when the storage method returns
`undefined`, and 400 when the Zod insert schema rejects the body (a
`none` body); `MemStorage` methods never throw, so the catch-all
500 branches of the GET handlers are unreachable. -/
theorem routes_status_contract :
    (∀ (st : MemStorage) (id : Nat),
      (Routes.getUserById st id).fst =
        if (st.getUser id).isSome then 200 else 404) ∧
    (∀ (st : MemStorage) (body : Option InsertUser) (now : Nat),
      (Routes.postUsers st body now).fst = if body.isSome then 201 else 400) ∧
    (∀ (st : MemStorage) (id : Nat) (body : Option UserPatch),
      (Routes.putUsers st id body).fst =
        if body.isSome then (if (st.getUser id).isSome then 200 else 404)
        else 400) ∧
    (∀ st : MemStorage, (Routes.getProtocols st).fst = 200) ∧
    (∀ (st : MemStorage) (t : String),
      (Routes.getProtocolByType st t).fst =
        if (st.getEmergencyProtocolByType t).isSome then 200 else 404) ∧
    (∀ (st : MemStorage) (body : Option InsertEmergencyProtocol) (now : Nat),
      (Routes.postProtocols st body now).fst =
        if body.isSome then 201 else 400) ∧
    (∀ (st : MemStorage) (co : Option String),
      (Routes.getContacts st co).fst = 200) ∧
    (∀ (st : MemStorage) (t : String) (co : Option String),
      (Routes.getContactsByType st t co).fst = 200) ∧
    (∀ (st : MemStorage) (body : Option InsertEmergencyContact),
      (Routes.postContacts st body).fst = if body.isSome then 201 else 400) ∧
    (∀ (st : MemStorage) (body : Option InsertUserSession) (now : Nat),
      (Routes.postSessions st body now).fst =
        if body.isSome then 201 else 400) ∧
    (∀ (st : MemStorage) (uid : Nat),
      (Routes.getSessionsByUserId st uid).fst = 200) ∧
    (∀ (st : MemStorage) (id : Nat) (body : Option SessionPatch),
      (Routes.putSessions st id body).fst =
        if body.isSome then (if (mapGet st.userSessions id).isSome then 200
          else 404)
        else 400) := by
  refine ⟨?_, ?_, ?_, ?_, ?_, ?_, ?_, ?_, ?_, ?_, ?_, ?_⟩
  · intro st id
    unfold Routes.getUserById
    cases h : st.getUser id <;> simp [h]
  · intro st body now
    cases body <;> rfl
  · intro st id body
    cases body with
    | none => rfl
    | some p =>
      unfold Routes.putUsers MemStorage.updateUser MemStorage.getUser
      cases h : mapGet st.users id <;> simp [h]
  · intro st; rfl
  · intro st t
    unfold Routes.getProtocolByType
    cases h : st.getEmergencyProtocolByType t <;> simp [h]
  · intro st body now
    cases body <;> rfl
  · intro st co; rfl
  · intro st t co; rfl
  · intro st body
    cases body <;> rfl
  · intro st body now
    cases body <;> rfl
  · intro st uid; rfl
  · intro st id body
    cases body with
    | none => rfl
    | some p =>
      unfold Routes.putSessions MemStorage.updateUserSession
      cases h : mapGet st.userSessions id <;> simp [h]

/-- C5: every `createX` takes its id from the shared counter: the
returned record's id is `currentId` (regardless of the insert payload,
including any stray `id` property on it, which the `{ ...payload, id }`
spread always overrides), the record is stored under that fresh key, and
the counter advances by one. -/
theorem create_assigns_fresh_id :
    ∀ (st : MemStorage) (now : Nat) (u : InsertUser)
      (p : InsertEmergencyProtocol) (c : InsertEmergencyContact)
      (s : InsertUserSession),
      ((st.createUser u now).fst.id = st.currentId ∧
        ((st.createUser u now).snd).getUser st.currentId =
          some (st.createUser u now).fst ∧
        ((st.createUser u now).snd).currentId = st.currentId + 1) ∧
      ((st.createEmergencyProtocol p now).fst.id = st.currentId ∧
        mapGet ((st.createEmergencyProtocol p now).snd).emergencyProtocols
          st.currentId = some (st.createEmergencyProtocol p now).fst ∧
        ((st.createEmergencyProtocol p now).snd).currentId =
          st.currentId + 1) ∧
      ((st.createEmergencyContact c).fst.id = st.currentId ∧
        mapGet ((st.createEmergencyContact c).snd).emergencyContacts
          st.currentId = some (st.createEmergencyContact c).fst ∧
        ((st.createEmergencyContact c).snd).currentId = st.currentId + 1) ∧
      ((st.createUserSession s now).fst.id = st.currentId ∧
        mapGet ((st.createUserSession s now).snd).userSessions st.currentId =
          some (st.createUserSession s now).fst ∧
        ((st.createUserSession s now).snd).currentId = st.currentId + 1) := by
  intro st now u p c s
  refine ⟨⟨rfl, ?_, rfl⟩, ⟨rfl, ?_, rfl⟩, ⟨rfl, ?_, rfl⟩, ⟨rfl, ?_, rfl⟩⟩ <;>
    exact mapGet_mapSet_self _ _ _

/-- C6: all four entity maps share one monotonic counter: along any call
sequence the ids handed out by the `createX` calls are pairwise strictly
increasing in call order (hence unique), and in every state reachable
from a fresh `MemStorage` the keys of the four maps are unique within
and across the maps. -/
theorem create_ids_strictly_increase :
    (∀ (st : MemStorage) (ops : List Op),
      (st.runIds ops).Pairwise (· < ·)) ∧
    (∀ (now : Nat) (ops : List Op),
      (((MemStorage.init now).run ops).allIds).Nodup) :=
  ⟨fun st ops => MemStorage.runIds_pairwise_lt ops st,
   fun now ops =>
     (MemStorage.goodIds_run (MemStorage.goodIds_init now) ops).2⟩

/-- C4: for every entity and every existing record id, `updateX`
performs a shallow merge: each field named in the partial payload takes
the payload's value, each field not named keeps the previous stored
value, and the merged record replaces the old one under the same key. -/
theorem update_shallow_merge :
    (∀ (st : MemStorage) (id : Nat) (patch : UserPatch) (old : User),
      st.getUser id = some old →
      ∃ new : User,
        (st.updateUser id patch).fst = some new ∧
        ((st.updateUser id patch).snd).getUser id = some new ∧
        new.id = old.id ∧ new.createdAt = old.createdAt ∧
        (∀ v, patch.username = some v → new.username = v) ∧
        (patch.username = none → new.username = old.username) ∧
        (∀ v, patch.password = some v → new.password = v) ∧
        (patch.password = none → new.password = old.password) ∧
        (∀ v, patch.preferredLanguage = some v → new.preferredLanguage = v) ∧
        (patch.preferredLanguage = none →
          new.preferredLanguage = old.preferredLanguage) ∧
        (∀ v, patch.accessibilitySettings = some v →
          new.accessibilitySettings = v) ∧
        (patch.accessibilitySettings = none →
          new.accessibilitySettings = old.accessibilitySettings)) ∧
    (∀ (st : MemStorage) (id : Nat) (patch : ProtocolPatch)
      (old : EmergencyProtocol),
      mapGet st.emergencyProtocols id = some old →
      ∃ new : EmergencyProtocol,
        (st.updateEmergencyProtocol id patch).fst = some new ∧
        mapGet ((st.updateEmergencyProtocol id patch).snd).emergencyProtocols
          id = some new ∧
        new.id = old.id ∧ new.createdAt = old.createdAt ∧
        (∀ v, patch.type = some v → new.type = v) ∧
        (patch.type = none → new.type = old.type) ∧
        (∀ v, patch.name = some v → new.name = v) ∧
        (patch.name = none → new.name = old.name) ∧
        (∀ v, patch.description = some v → new.description = v) ∧
        (patch.description = none → new.description = old.description) ∧
        (∀ v, patch.instructions = some v → new.instructions = v) ∧
        (patch.instructions = none → new.instructions = old.instructions) ∧
        (∀ v, patch.severity = some v → new.severity = v) ∧
        (patch.severity = none → new.severity = old.severity) ∧
        (∀ v, patch.category = some v → new.category = v) ∧
        (patch.category = none → new.category = old.category) ∧
        (∀ v, patch.languages = some v → new.languages = v) ∧
        (patch.languages = none → new.languages = old.languages)) ∧
    (∀ (st : MemStorage) (id : Nat) (patch : ContactPatch)
      (old : EmergencyContact),
      mapGet st.emergencyContacts id = some old →
      ∃ new : EmergencyContact,
        (st.updateEmergencyContact id patch).fst = some new ∧
        mapGet ((st.updateEmergencyContact id patch).snd).emergencyContacts
          id = some new ∧
        new.id = old.id ∧
        (∀ v, patch.name = some v → new.name = v) ∧
        (patch.name = none → new.name = old.name) ∧
        (∀ v, patch.phoneNumber = some v → new.phoneNumber = v) ∧
        (patch.phoneNumber = none → new.phoneNumber = old.phoneNumber) ∧
        (∀ v, patch.type = some v → new.type = v) ∧
        (patch.type = none → new.type = old.type) ∧
        (∀ v, patch.country = some v → new.country = v) ∧
        (patch.country = none → new.country = old.country) ∧
        (∀ v, patch.region = some v → new.region = v) ∧
        (patch.region = none → new.region = old.region) ∧
        (∀ v, patch.isActive = some v → new.isActive = v) ∧
        (patch.isActive = none → new.isActive = old.isActive)) ∧
    (∀ (st : MemStorage) (id : Nat) (patch : SessionPatch)
      (old : UserSession),
      mapGet st.userSessions id = some old →
      ∃ new : UserSession,
        (st.updateUserSession id patch).fst = some new ∧
        mapGet ((st.updateUserSession id patch).snd).userSessions id =
          some new ∧
        new.id = old.id ∧ new.startTime = old.startTime ∧
        new.endTime = old.endTime ∧
        (∀ v, patch.userId = some v → new.userId = v) ∧
        (patch.userId = none → new.userId = old.userId) ∧
        (∀ v, patch.sessionData = some v → new.sessionData = v) ∧
        (patch.sessionData = none → new.sessionData = old.sessionData) ∧
        (∀ v, patch.emergencyType = some v → new.emergencyType = v) ∧
        (patch.emergencyType = none →
          new.emergencyType = old.emergencyType) ∧
        (∀ v, patch.actions = some v → new.actions = v) ∧
        (patch.actions = none → new.actions = old.actions)) := by
  refine ⟨?_, ?_, ?_, ?_⟩
  · intro st id patch old h
    unfold MemStorage.getUser at h
    unfold MemStorage.updateUser MemStorage.getUser
    simp only [h]
    refine ⟨_, rfl, mapGet_mapSet_self _ _ _, rfl, rfl, ?_, ?_, ?_, ?_, ?_,
      ?_, ?_, ?_⟩ <;>
      first
        | (intro v hv; simp [hv])
        | (intro hv; simp [hv])
  · intro st id patch old h
    unfold MemStorage.updateEmergencyProtocol
    simp only [h]
    refine ⟨_, rfl, mapGet_mapSet_self _ _ _, rfl, rfl, ?_, ?_, ?_, ?_, ?_,
      ?_, ?_, ?_, ?_, ?_, ?_, ?_, ?_, ?_⟩ <;>
      first
        | (intro v hv; simp [hv])
        | (intro hv; simp [hv])
  · intro st id patch old h
    unfold MemStorage.updateEmergencyContact
    simp only [h]
    refine ⟨_, rfl, mapGet_mapSet_self _ _ _, rfl, ?_, ?_, ?_, ?_, ?_, ?_,
      ?_, ?_, ?_, ?_, ?_, ?_⟩ <;>
      first
        | (intro v hv; simp [hv])
        | (intro hv; simp [hv])
  · intro st id patch old h
    unfold MemStorage.updateUserSession
    simp only [h]
    refine ⟨_, rfl, mapGet_mapSet_self _ _ _, rfl, rfl, rfl, ?_, ?_, ?_, ?_,
      ?_, ?_, ?_, ?_⟩ <;>
      first
        | (intro v hv; simp [hv])
        | (intro hv; simp [hv])

/-- A user record as stored by `createUser` on a fresh instance, used to
exercise the update contract. -/
def sampleUser : User :=
  { id := 9, username := "alice", password := "pw",
    preferredLanguage := some "en",
    accessibilitySettings := some (JsValue.objV []), createdAt := some 0 }

/-- Fresh instance after creating one user. -/
def sampleUserState : MemStorage :=
  ((MemStorage.init 0).createUser { username := "alice", password := "pw" } 0).snd

/-- Fresh instance after creating one user session. -/
def sampleSessionState : MemStorage :=
  ((MemStorage.init 0).createUserSession { sessionData := JsValue.nullV } 0).snd

/-- C4 (witness): concrete partial updates on each entity merge the
named field and keep the others. -/
theorem update_shallow_merge_witness :
    (∃ new : User,
      (sampleUserState.updateUser 9 { username := some "bob" }).fst =
        some new ∧
      new.username = "bob" ∧ new.password = "pw") ∧
    (∃ new : EmergencyProtocol,
      ((MemStorage.init 0).updateEmergencyProtocol 1
        { severity := some "low" }).fst = some new ∧
      new.severity = "low" ∧ new.name = "Fire Emergency") ∧
    (∃ new : EmergencyContact,
      ((MemStorage.init 0).updateEmergencyContact 5
        { phoneNumber := some "112" }).fst = some new ∧
      new.phoneNumber = "112" ∧ new.country = "US") ∧
    (∃ new : UserSession,
      (sampleSessionState.updateUserSession 9
        { emergencyType := some (some "fire") }).fst = some new ∧
      new.emergencyType = some "fire" ∧ new.startTime = some 0) := by
  refine ⟨?_, ?_, ?_, ?_⟩
  · obtain ⟨new, hfst, _, _, _, hu1, _, _, hp2, _, _, _, _⟩ :=
      update_shallow_merge.1 sampleUserState 9 { username := some "bob" }
        sampleUser rfl
    exact ⟨new, hfst, hu1 "bob" rfl, hp2 rfl⟩
  · obtain ⟨new, hfst, _, _, _, _, _, _, hn2, _, _, _, _, hs1, _, _, _, _, _⟩ :=
      update_shallow_merge.2.1 (MemStorage.init 0) 1 { severity := some "low" }
        ((MemStorage.defaultProtocols 0).get ⟨0, by simp [MemStorage.defaultProtocols]⟩) rfl
    exact ⟨new, hfst, hs1 "low" rfl, hn2 rfl⟩
  · obtain ⟨new, hfst, _, _, _, _, hph1, _, _, _, _, hco2, _, _, _, _⟩ :=
      update_shallow_merge.2.2.1 (MemStorage.init 0) 5
        { phoneNumber := some "112" }
        (MemStorage.defaultContacts.get ⟨0, by simp [MemStorage.defaultContacts]⟩) rfl
    exact ⟨new, hfst, hph1 "112" rfl, hco2 rfl⟩
  · obtain ⟨new, hfst, _, _, hst, _, _, _, _, _, he1, _, _, _⟩ :=
      update_shallow_merge.2.2.2 sampleSessionState 9
        { emergencyType := some (some "fire") }
        { id := 9, userId := none, sessionData := JsValue.nullV,
          startTime := some 0, endTime := none, emergencyType := none,
          actions := some (JsValue.arrV []) } rfl
    exact ⟨new, hfst, he1 (some "fire") rfl, hst⟩

/-- C7 (counterexample): the claim that `getEmergencyContacts(country)`
returns exactly the contacts whose `country` equals the given string
fails for the empty string: JavaScript treats `""` as falsy, so
`country ? ... : contacts` skips the filter and every seeded `"US"`
contact is returned. -/
theorem contacts_country_filter_claim_false :
    ¬ (∀ x ∈ (MemStorage.init 0).getEmergencyContacts (some ""),
        x.country = "") := by
  intro h
  have hx := h
    { id := 5, name := "Emergency Services", phoneNumber := "911",
      type := "general", country := "US", region := some "national",
      isActive := some true }
    (List.Mem.head _)
  exact absurd hx (by decide)

/-- C7 (amended): for a non-empty country string the result of
`getEmergencyContacts` is exactly the stored contacts with that country;
with the argument omitted, or equal to the falsy empty string, all
stored contacts are returned; `getEmergencyContactsByType` filters by
type unconditionally and by country under the same truthiness rule. -/
theorem contacts_country_filter :
    (∀ (st : MemStorage) (c : String) (x : EmergencyContact), c ≠ "" →
      (x ∈ st.getEmergencyContacts (some c) ↔
        x ∈ mapValues st.emergencyContacts ∧ x.country = c)) ∧
    (∀ (st : MemStorage) (x : EmergencyContact),
      x ∈ st.getEmergencyContacts none ↔
        x ∈ mapValues st.emergencyContacts) ∧
    (∀ (st : MemStorage) (x : EmergencyContact),
      x ∈ st.getEmergencyContacts (some "") ↔
        x ∈ mapValues st.emergencyContacts) ∧
    (∀ (st : MemStorage) (t c : String) (x : EmergencyContact), c ≠ "" →
      (x ∈ st.getEmergencyContactsByType t (some c) ↔
        x ∈ mapValues st.emergencyContacts ∧ x.type = t ∧
          x.country = c)) ∧
    (∀ (st : MemStorage) (t : String) (x : EmergencyContact),
      x ∈ st.getEmergencyContactsByType t none ↔
        x ∈ mapValues st.emergencyContacts ∧ x.type = t) ∧
    (∀ (st : MemStorage) (t : String) (x : EmergencyContact),
      x ∈ st.getEmergencyContactsByType t (some "") ↔
        x ∈ mapValues st.emergencyContacts ∧ x.type = t) := by
  refine ⟨?_, ?_, ?_, ?_, ?_, ?_⟩
  · intro st c x hc
    unfold MemStorage.getEmergencyContacts
    simp [strTruthy, hc, List.mem_filter]
  · intro st x
    unfold MemStorage.getEmergencyContacts
    simp [strTruthy]
  · intro st x
    unfold MemStorage.getEmergencyContacts
    simp [strTruthy]
  · intro st t c x hc
    unfold MemStorage.getEmergencyContactsByType
    simp [strTruthy, hc, List.mem_filter, and_assoc]
    exact fun _ => ⟨fun ⟨a, b⟩ => ⟨b, a⟩, fun ⟨a, b⟩ => ⟨b, a⟩⟩
  · intro st t x
    unfold MemStorage.getEmergencyContactsByType
    simp [strTruthy, List.mem_filter]
  · intro st t x
    unfold MemStorage.getEmergencyContactsByType
    simp [strTruthy, List.mem_filter]

/-- C7 (witness): the filter characterisation at `country = "US"` on a
fresh instance. -/
theorem contacts_country_filter_witness :
    { id := 5, name := "Emergency Services", phoneNumber := "911",
      type := "general", country := "US", region := some "national",
      isActive := some true } ∈
        (MemStorage.init 0).getEmergencyContacts (some "US") ↔
    ({ id := 5, name := "Emergency Services", phoneNumber := "911",
       type := "general", country := "US", region := some "national",
       isActive := some true } : EmergencyContact) ∈
        mapValues (MemStorage.init 0).emergencyContacts ∧
    ({ id := 5, name := "Emergency Services", phoneNumber := "911",
       type := "general", country := "US", region := some "national",
       isActive := some true } : EmergencyContact).country = "US" :=
  contacts_country_filter.1 (MemStorage.init 0) "US"
    { id := 5, name := "Emergency Services", phoneNumber := "911",
      type := "general", country := "US", region := some "national",
      isActive := some true } (by decide)

/-- C8: no storage operation and no registered REST handler ever removes
a key: along any call sequence each of the four key lists only grows at
the end, and every handler's resulting state is the result of replaying
zero or one storage calls on its input state. -/
theorem no_record_deleted :
    (∀ (st : MemStorage) (ops : List Op),
      growsTo (mapKeys st.users) (mapKeys (st.run ops).users) ∧
      growsTo (mapKeys st.emergencyProtocols)
        (mapKeys (st.run ops).emergencyProtocols) ∧
      growsTo (mapKeys st.emergencyContacts)
        (mapKeys (st.run ops).emergencyContacts) ∧
      growsTo (mapKeys st.userSessions)
        (mapKeys (st.run ops).userSessions)) ∧
    (∀ (st : MemStorage) (id : Nat),
      ∃ ops, (Routes.getUserById st id).snd = st.run ops) ∧
    (∀ (st : MemStorage) (body : Option InsertUser) (now : Nat),
      ∃ ops, (Routes.postUsers st body now).snd = st.run ops) ∧
    (∀ (st : MemStorage) (id : Nat) (body : Option UserPatch),
      ∃ ops, (Routes.putUsers st id body).snd = st.run ops) ∧
    (∀ st : MemStorage, ∃ ops, (Routes.getProtocols st).snd = st.run ops) ∧
    (∀ (st : MemStorage) (t : String),
      ∃ ops, (Routes.getProtocolByType st t).snd = st.run ops) ∧
    (∀ (st : MemStorage) (body : Option InsertEmergencyProtocol) (now : Nat),
      ∃ ops, (Routes.postProtocols st body now).snd = st.run ops) ∧
    (∀ (st : MemStorage) (co : Option String),
      ∃ ops, (Routes.getContacts st co).snd = st.run ops) ∧
    (∀ (st : MemStorage) (t : String) (co : Option String),
      ∃ ops, (Routes.getContactsByType st t co).snd = st.run ops) ∧
    (∀ (st : MemStorage) (body : Option InsertEmergencyContact),
      ∃ ops, (Routes.postContacts st body).snd = st.run ops) ∧
    (∀ (st : MemStorage) (body : Option InsertUserSession) (now : Nat),
      ∃ ops, (Routes.postSessions st body now).snd = st.run ops) ∧
    (∀ (st : MemStorage) (uid : Nat),
      ∃ ops, (Routes.getSessionsByUserId st uid).snd = st.run ops) ∧
    (∀ (st : MemStorage) (id : Nat) (body : Option SessionPatch),
      ∃ ops, (Routes.putSessions st id body).snd = st.run ops) := by
  refine ⟨fun st ops => MemStorage.run_growsTo ops st,
    ?_, ?_, ?_, ?_, ?_, ?_, ?_, ?_, ?_, ?_, ?_, ?_⟩
  · intro st id
    unfold Routes.getUserById
    cases h : st.getUser id <;> exact ⟨[], rfl⟩
  · intro st body now
    cases body with
    | none => exact ⟨[], rfl⟩
    | some u => exact ⟨[Op.opCreateUser u now], rfl⟩
  · intro st id body
    cases body with
    | none => exact ⟨[], rfl⟩
    | some p =>
      refine ⟨[Op.opUpdateUser id p], ?_⟩
      show (Routes.putUsers st id (some p)).snd = (st.updateUser id p).snd
      unfold Routes.putUsers
      rcases h : st.updateUser id p with ⟨r, st2⟩
      cases r <;> simp [h]
  · intro st; exact ⟨[], rfl⟩
  · intro st t
    unfold Routes.getProtocolByType
    cases h : st.getEmergencyProtocolByType t <;> exact ⟨[], rfl⟩
  · intro st body now
    cases body with
    | none => exact ⟨[], rfl⟩
    | some p => exact ⟨[Op.opCreateProtocol p now], rfl⟩
  · intro st co; exact ⟨[], rfl⟩
  · intro st t co; exact ⟨[], rfl⟩
  · intro st body
    cases body with
    | none => exact ⟨[], rfl⟩
    | some c => exact ⟨[Op.opCreateContact c], rfl⟩
  · intro st body now
    cases body with
    | none => exact ⟨[], rfl⟩
    | some s => exact ⟨[Op.opCreateSession s now], rfl⟩
  · intro st uid; exact ⟨[], rfl⟩
  · intro st id body
    cases body with
    | none => exact ⟨[], rfl⟩
    | some p =>
      refine ⟨[Op.opUpdateSession id p], ?_⟩
      show (Routes.putSessions st id (some p)).snd =
        (st.updateUserSession id p).snd
      unfold Routes.putSessions
      rcases h : st.updateUserSession id p with ⟨r, st2⟩
      cases r <;> simp [h]

/-- C9: `getEmergencyProtocolByType` scans `Array.from(values())` with
`find`, so among several stored protocols of the same type it returns
the one first in map insertion order; creating another protocol of an
existing type (no uniqueness check) appends at the end and leaves the
lookup result unchanged. -/
theorem protocol_by_type_first_match :
    (∀ (st : MemStorage) (t : String) (q : EmergencyProtocol),
      st.getEmergencyProtocolByType t = some q →
      ∃ a b, mapValues st.emergencyProtocols = a ++ q :: b ∧
        ∀ r ∈ a, r.type ≠ t) ∧
    (∀ (st : MemStorage) (t : String) (p : InsertEmergencyProtocol)
      (now : Nat) (q : EmergencyProtocol),
      st.goodIds → st.getEmergencyProtocolByType t = some q →
      ((st.createEmergencyProtocol p now).snd).getEmergencyProtocolByType t =
        some q) := by
  constructor
  · intro st t q h
    unfold MemStorage.getEmergencyProtocolByType at h
    obtain ⟨a, b, heq, ha⟩ := find?_earliest _ _ _ h
    exact ⟨a, b, heq, fun r hr => by simpa using ha r hr⟩
  · intro st t p now q hg h
    have hc : st.currentId ∉ mapKeys st.emergencyProtocols := fun hm =>
      lt_irrefl _ (hg.1 _ (by simp [MemStorage.allIds, hm]))
    unfold MemStorage.getEmergencyProtocolByType at h ⊢
    have happ : ∀ v : EmergencyProtocol,
        mapSet st.emergencyProtocols st.currentId v =
          st.emergencyProtocols ++ [(st.currentId, v)] := fun v => by
      unfold mapSet
      rw [if_neg (fun hx => hc ((any_eq_mem_mapKeys _ _).mp hx))]
    show List.find? (fun protocol => decide (protocol.type = t))
      (mapValues (mapSet st.emergencyProtocols st.currentId
        { id := st.currentId, type := p.type, name := p.name,
          description := p.description, instructions := p.instructions,
          severity := p.severity, category := p.category,
          languages := p.languages, createdAt := some now })) = some q
    rw [happ]
    unfold mapValues at h ⊢
    rw [List.map_append]
    exact find?_append_some _ h

/-- C9 (witness): creating a second `"fire"` protocol on a fresh
instance leaves `getEmergencyProtocolByType("fire")` returning the
seeded protocol, not the new one. -/
theorem protocol_by_type_first_match_witness :
    (((MemStorage.init 0).createEmergencyProtocol
        { type := "fire", name := "Another fire drill",
          instructions := JsValue.nullV, severity := "low",
          category := "test" } 0).snd).getEmergencyProtocolByType "fire" =
      some ((MemStorage.defaultProtocols 0).get
        ⟨0, by simp [MemStorage.defaultProtocols]⟩) :=
  protocol_by_type_first_match.2 (MemStorage.init 0) "fire"
    { type := "fire", name := "Another fire drill",
      instructions := JsValue.nullV, severity := "low", category := "test" }
    0
    ((MemStorage.defaultProtocols 0).get
      ⟨0, by simp [MemStorage.defaultProtocols]⟩)
    (MemStorage.goodIds_init 0) rfl

/-- C10: `createUser` stores `preferredLanguage` as `"en"` whenever the
payload's value is absent or the falsy empty string, and
`accessibilitySettings` as `{}` whenever absent or falsy, so the stored
record never carries an empty-string `preferredLanguage`. -/
theorem create_user_defaults :
    ∀ (st : MemStorage) (u : InsertUser) (now : Nat),
      ((st.createUser u now).fst.preferredLanguage ≠ some "") ∧
      (u.preferredLanguage = none →
        (st.createUser u now).fst.preferredLanguage = some "en") ∧
      (u.preferredLanguage = some "" →
        (st.createUser u now).fst.preferredLanguage = some "en") ∧
      (u.accessibilitySettings = none →
        (st.createUser u now).fst.accessibilitySettings =
          some (JsValue.objV [])) ∧
      (∀ v, u.accessibilitySettings = some v → v.truthy = false →
        (st.createUser u now).fst.accessibilitySettings =
          some (JsValue.objV [])) ∧
      ((st.createUser u now).snd).getUser st.currentId =
        some (st.createUser u now).fst := by
  intro st u now
  refine ⟨?_, ?_, ?_, ?_, ?_, mapGet_mapSet_self _ _ _⟩
  · show some (jsOrStr u.preferredLanguage "en") ≠ some ""
    cases hp : u.preferredLanguage with
    | none => simp [jsOrStr]
    | some s => by_cases hs : s = "" <;> simp [jsOrStr, hs]
  · intro hv
    show some (jsOrStr u.preferredLanguage "en") = some "en"
    rw [hv]
    rfl
  · intro hv
    show some (jsOrStr u.preferredLanguage "en") = some "en"
    rw [hv]
    rfl
  · intro hv
    show some (jsOrJs u.accessibilitySettings (JsValue.objV [])) =
      some (JsValue.objV [])
    rw [hv]
    rfl
  · intro v hv htr
    show some (jsOrJs u.accessibilitySettings (JsValue.objV [])) =
      some (JsValue.objV [])
    rw [hv]
    simp [jsOrJs, htr]

/-- C10 (witness): an empty-string `preferredLanguage` and a falsy
(`null`) `accessibilitySettings` are both replaced by their defaults. -/
theorem create_user_defaults_witness :
    (((MemStorage.init 0).createUser
        { username := "u", password := "p", preferredLanguage := some "",
          accessibilitySettings := some JsValue.nullV }
        0).fst.preferredLanguage = some "en") ∧
    (((MemStorage.init 0).createUser
        { username := "u", password := "p", preferredLanguage := some "",
          accessibilitySettings := some JsValue.nullV }
        0).fst.accessibilitySettings = some (JsValue.objV [])) :=
  ⟨(create_user_defaults (MemStorage.init 0)
      { username := "u", password := "p", preferredLanguage := some "",
        accessibilitySettings := some JsValue.nullV } 0).2.2.1 rfl,
   (create_user_defaults (MemStorage.init 0)
      { username := "u", password := "p", preferredLanguage := some "",
        accessibilitySettings := some JsValue.nullV } 0).2.2.2.2.1
     JsValue.nullV rfl rfl⟩

/-- C3 (counterexample): the claim that a failing upstream call makes the
translation operation return the original text with confidence 0 is
false for the client `TranslationService`: with an empty cache,
translating `"help"` to `"es"` while the server request rejects hits the
offline emergency-phrase fallback and returns `"¡Ayuda!"` with
confidence 0.8. -/
theorem translate_fallback_claim_false :
    ¬ (((TranslationService.mk []).translateText "help" "es" "en"
          (Except.error ())).fst.translatedText = "help" ∧
       ((TranslationService.mk []).translateText "help" "es" "en"
          (Except.error ())).fst.confidence = some 0) := by
  intro h
  have h1 : ((TranslationService.mk []).translateText "help" "es" "en"
      (Except.error ())).fst.translatedText = "¡Ayuda!" := rfl
  exact absurd (h1.symm.trans h.1) (by decide)

/-- C3 (amended): when the upstream call fails,
`GeminiService.translateText` always returns the original text with
source `"unknown"` and confidence 0; `TranslationService.translateText`
(on a cache miss) does so only when the offline emergency-phrase
fallback finds nothing, and otherwise returns the fallback phrase,
whose confidence is always 0.8. -/
theorem translate_failure_results :
    (∀ text targetLanguage : String,
      GeminiService.translateText text targetLanguage (Except.error ()) =
        { translatedText := text, sourceLanguage := "unknown",
          confidence := 0 }) ∧
    (∀ (svc : TranslationService) (text targetLanguage sourceLanguage : String),
      svc.translationCache.find?
        (fun e => e.fst =
          sourceLanguage ++ "-" ++ targetLanguage ++ "-" ++ text) = none →
      TranslationService.fallbackTranslation text targetLanguage
        sourceLanguage = none →
      (svc.translateText text targetLanguage sourceLanguage
        (Except.error ())).fst =
        { success := false, translatedText := text,
          sourceLanguage := sourceLanguage,
          targetLanguage := targetLanguage, confidence := some 0 }) ∧
    (∀ (svc : TranslationService) (text targetLanguage sourceLanguage : String)
      (r : TranslationResult),
      svc.translationCache.find?
        (fun e => e.fst =
          sourceLanguage ++ "-" ++ targetLanguage ++ "-" ++ text) = none →
      TranslationService.fallbackTranslation text targetLanguage
        sourceLanguage = some r →
      (svc.translateText text targetLanguage sourceLanguage
        (Except.error ())).fst = r ∧ r.confidence = some (0.8 : ℚ)) := by
  refine ⟨?_, ?_, ?_⟩
  · intro text targetLanguage
    rfl
  · intro svc text targetLanguage sourceLanguage hcache hfb
    unfold TranslationService.translateText
    simp only [hcache, Option.map_none', hfb]
  · intro svc text targetLanguage sourceLanguage r hcache hfb
    constructor
    · unfold TranslationService.translateText
      simp only [hcache, Option.map_none', hfb]
    · unfold TranslationService.fallbackTranslation at hfb
      dsimp only at hfb
      split at hfb
      · exact absurd hfb (by simp)
      · cases hfb
        rfl

/-- C3 (witness): a failing upstream call on text without any emergency
keyword falls through to the original text with confidence 0. -/
theorem translate_failure_results_witness :
    ((TranslationService.mk []).translateText "zzz" "es" "en"
        (Except.error ())).fst =
      { success := false, translatedText := "zzz", sourceLanguage := "en",
        targetLanguage := "es", confidence := some 0 } :=
  translate_failure_results.2.1 (TranslationService.mk []) "zzz" "es" "en"
    rfl rfl
